import Mathlib

/-!
# Verification of the `ts-loggly-bulk` delivery engine

A shallow embedding of `src/LogglyClient.ts` (class `LogglyClient`): the
batching queue, the retry-with-backoff executor, the bounded overflow buffer,
the authentication circuit breaker, and the transport adapter.  The HTTP
transport itself (the `fetch` primitive) is the external collaborator
boundary: it is modelled by an oracle value `FetchOutcome` describing how one
`fetch` call would settle (a resolved response with a status code and a body,
or a rejected promise carrying an error message).  All client-side control
flow around that oracle is translated directly from the TypeScript source.

JavaScript `Error` values are modelled by their message string; `e.toString()`
for an `Error` with message `m` is the string `"Error: " ++ m`, which is what
`isRetryableError` inspects via `String.prototype.includes`.
-/

namespace TsLogglyBulk

/-- Maximum event size in bytes (`const EVENT_SIZE = 1000 * 1000`). -/
def EVENT_SIZE : Nat := 1000 * 1000

/-- `private readonly maxRetries = 5`. -/
def maxRetries : Nat := 5

/-- `private readonly initialRetryDelay = 2000` (milliseconds). -/
def initialRetryDelay : Nat := 2000

/-- Boolean substring test on character lists: JS `String.prototype.includes`
restricted to the character sequences we model. -/
def charsInclude (s pat : List Char) : Bool :=
  match s with
  | [] => pat.isEmpty
  | _ :: rest => pat.isPrefixOf s || charsInclude rest pat

/-- JS `haystack.includes(needle)`. -/
def includes (haystack needle : String) : Bool :=
  charsInclude haystack.toList needle.toList

/-- JS `Error.prototype.toString` for an error whose message is `msg`. -/
def errorToString (msg : String) : String := "Error: " ++ msg

/-- The fixed list of retryable network error codes from `isRetryableError`. -/
def retryableErrors : List String :=
  ["ETIMEDOUT", "ECONNRESET", "ESOCKETTIMEDOUT", "ECONNABORTED",
   "ENETUNREACH", "EHOSTUNREACH"]

/-- `private isRetryableError(error: Error): boolean` — the error (given here
by its message `msg`) is retryable when its `toString()` contains one of the
listed network codes, or contains `"status: 5"` or `"status: 429"`. -/
def isRetryableError (msg : String) : Bool :=
  let errorString := errorToString msg
  let hasRetryableCode := retryableErrors.any (fun code => includes errorString code)
  let isServerError :=
    includes errorString "status: 5" || includes errorString "status: 429"
  hasRetryableCode || isServerError

/-- How one `fetch` call settles: a resolved `Response` with a status code and
a text body, or a rejection (network failure) carrying an error message. -/
inductive FetchOutcome where
  | resolved (status : Nat) (body : String)
  | rejected (msg : String)
deriving DecidableEq

/-- The configuration fields that influence the delivery engine control flow
(after constructor defaulting; `bufferOptions` is always present there). -/
structure ClientConfig where
  isBulk : Bool := true
  json : Bool := false
  bufferSize : Nat := 500
  useProxy : Bool := false
deriving DecidableEq

/-- `interface LogglyResponse`. -/
structure LogglyResponse where
  response : String
  statusCode : Nat
deriving DecidableEq

/-- The mutable fields of `LogglyClient`.  Timer handles are modelled by
whether they are non-null; the pair of process-wide proxy environment
variables (`HTTPS_PROXY` / `HTTP_PROXY`, always set and removed together) is
modelled by the flag `envProxySet`. -/
structure ClientState where
  batchQueue : List String := []
  failedLogsBuffer : List String := []
  batchTimer : Bool := false
  bufferRetryTimer : Bool := false
  isTokenValid : Bool := true
  eventId : Nat := 1
  envProxySet : Bool := false
deriving DecidableEq

/-- `Response.ok`: status in the range 200–299. -/
def respOk (status : Nat) : Bool := 200 ≤ status && status < 300

/-- `private async sendToLoggly(data, additionalTags?)` — one network attempt.
`data` is the request body and `additionalTags` only shape the URL/headers of
the request; neither influences the engine state, so they are accepted and
ignored here.  Before the `fetch`, a configured proxy sets the process-wide
proxy environment variables; they are deleted again only on the success path
(after the `ok` check, before the return).  A 401/403 response clears
`isTokenValid` and throws `"Authentication failed - invalid token"`; any
other non-2xx status throws `"HTTP Error: <status>"`; a rejected fetch
propagates its error.  Errors are returned as `Except.error msg`. -/
def sendToLoggly (cfg : ClientConfig) (_data : String)
    (_additionalTags : List String) (o : FetchOutcome) (st : ClientState) :
    Except String LogglyResponse × ClientState :=
  let st := if cfg.useProxy then { st with envProxySet := true } else st
  match o with
  | .rejected msg => (.error msg, st)
  | .resolved status body =>
    if status == 401 || status == 403 then
      (.error "Authentication failed - invalid token", { st with isTokenValid := false })
    else if !respOk status then
      (.error ("HTTP Error: " ++ toString status), st)
    else
      let st := if cfg.useProxy then { st with envProxySet := false } else st
      (.ok ⟨body, status⟩, st)

instance {ε α : Type} [DecidableEq ε] [DecidableEq α] : DecidableEq (Except ε α) :=
  fun a b =>
    match a, b with
    | .ok x, .ok y =>
      if h : x = y then .isTrue (by rw [h]) else .isFalse (by simp [h])
    | .error x, .error y =>
      if h : x = y then .isTrue (by rw [h]) else .isFalse (by simp [h])
    | .ok _, .error _ => .isFalse (by simp)
    | .error _, .ok _ => .isFalse (by simp)

/-- Result of `sendWithRetry`: the settled value, the client state after all
attempts, the backoff delays actually waited (in order), and the number of
network attempts performed. -/
structure RetryResult where
  result : Except String LogglyResponse
  state : ClientState
  delaysWaited : List Nat
  attemptsMade : Nat
deriving DecidableEq

/-- `private async sendWithRetry(data, tags?, eventId?, attempt = 1, delay =
this.initialRetryDelay)`.  The transport oracle maps each attempt number to
its `fetch` outcome.  On failure: if `attempt >= maxRetries` rethrow; if the
error is not retryable rethrow; otherwise wait `delay`, then recurse with
`attempt + 1` and `delay * 2`. -/
def sendWithRetry (cfg : ClientConfig) (data : String) (tags : List String)
    (oracle : Nat → FetchOutcome)
    (attempt : Nat) (delay : Nat) (st : ClientState) : RetryResult :=
  match h : sendToLoggly cfg data tags (oracle attempt) st with
  | (.ok resp, st1) => ⟨.ok resp, st1, [], 1⟩
  | (.error msg, st1) =>
    if ha : attempt ≥ maxRetries then ⟨.error msg, st1, [], 1⟩
    else if hr : ¬ (isRetryableError msg = true) then ⟨.error msg, st1, [], 1⟩
    else
      let r := sendWithRetry cfg data tags oracle (attempt + 1) (delay * 2) st1
      ⟨r.result, r.state, delay :: r.delaysWaited, r.attemptsMade + 1⟩
termination_by maxRetries - attempt
decreasing_by omega

/-- `private addToFailedBuffer(messages: string[])` — append `messages` to the
failed-logs buffer, evicting from the front when the configured capacity
would be exceeded.  `size` is `this.config.bufferOptions.size` (after
constructor defaulting `bufferOptions` is always present, so the early
`return` for a missing configuration is dead code).  JS `Array.prototype
.slice(k)` with `k ≥ 0` is `List.drop k`; the `overflow` arithmetic is
carried out in `Int` exactly as in the source. -/
def addToFailedBuffer (size : Nat) (buffer : List String)
    (messages : List String) : List String :=
  if buffer.length + messages.length > size then
    let overflow : Int := (buffer.length : Int) + messages.length - size
    if overflow > 0 && overflow ≤ (buffer.length : Int) then
      buffer.drop overflow.toNat ++ messages
    else if overflow > (buffer.length : Int) then
      -- buffer cleared; keep only the newest messages that will fit
      ([] : List String) ++
        messages.drop (max 0 ((messages.length : Int) - size)).toNat
    else
      buffer ++ messages
  else
    buffer ++ messages

/-- JS `array.join("\n")` over the captured batch. -/
def joinNewline (messages : List String) : String :=
  String.intercalate "\n" messages

/-- `private async sendBatch()` — cancel the pending batch timer, and if the
queue is non-empty capture and clear it (both before the first `await`), then
send the joined payload through `sendWithRetry`; on final failure the whole
captured sequence goes to the failed-logs buffer.  Returns the state after
the send completes together with the number of network attempts made.  (The
`this.emit` on success is a notification to listeners and not part of the
engine state.) -/
def sendBatch (cfg : ClientConfig) (oracle : Nat → FetchOutcome)
    (st : ClientState) : ClientState × Nat :=
  let st := { st with batchTimer := false }
  if st.batchQueue.isEmpty then (st, 0)
  else
    let messages := st.batchQueue
    let st := { st with eventId := st.eventId + 1, batchQueue := [] }
    let r := sendWithRetry cfg (joinNewline messages) [] oracle 1 initialRetryDelay st
    match r.result with
    | .ok _ => (r.state, r.attemptsMade)
    | .error _ =>
      ({ r.state with
          failedLogsBuffer :=
            addToFailedBuffer cfg.bufferSize r.state.failedLogsBuffer messages },
        r.attemptsMade)

/-- `private addToBatchQueue(message: string)` — push the message, start the
5000 ms batch timer if it is not already running, and trigger an immediate
`sendBatch` once the queue length reaches 100.  Returns the state and the
network attempts made by a triggered send. -/
def addToBatchQueue (cfg : ClientConfig) (oracle : Nat → FetchOutcome)
    (message : String) (st : ClientState) : ClientState × Nat :=
  let st := { st with batchQueue := st.batchQueue ++ [message] }
  let st := if st.batchTimer then st else { st with batchTimer := true }
  if st.batchQueue.length ≥ 100 then sendBatch cfg oracle st else (st, 0)

/-- `private async retryFailedLogs()` — one drain pass over the failed-logs
buffer.  A no-op when the buffer is empty or the token is invalid.  Otherwise
it takes the first `batchSize` entries (100 in bulk mode, 1 otherwise), makes
a single `sendToLoggly` attempt, and only on a response with status exactly
200 removes those entries; when entries remain it schedules another pass via
`setTimeout` (returned here as the third component — the scheduled pass is
*not* part of this call, which returns before it runs).  On a thrown error
the buffer is left untouched.  The second component counts network
attempts. -/
def retryFailedLogs (cfg : ClientConfig) (o : FetchOutcome)
    (st : ClientState) : ClientState × Nat × Bool :=
  if st.failedLogsBuffer.isEmpty || !st.isTokenValid then (st, 0, false)
  else
    let batchSize := if cfg.isBulk then 100 else 1
    let batch := st.failedLogsBuffer.take batchSize
    let payload := if cfg.isBulk then joinNewline batch else batch.headD ""
    match sendToLoggly cfg payload [] o st with
    | (.ok resp, st1) =>
      if resp.statusCode == 200 then
        let st2 := { st1 with failedLogsBuffer := st1.failedLogsBuffer.drop batchSize }
        (st2, 1, !st2.failedLogsBuffer.isEmpty)
      else
        (st1, 1, false)
    | (.error _, st1) => (st1, 1, false)

/-- `public async flush()` — null both timer handles, drive one `sendBatch`
if the batch queue is non-empty, then one `retryFailedLogs` pass if the
failed-logs buffer is non-empty and the token is valid.  Both calls are
wrapped in `try`/`catch`, so `flush` never throws.  `batchOracle` feeds the
batch send (one outcome per attempt) and `drainOutcome` the single drain
attempt; the returned `Nat` counts all network attempts. -/
def flush (cfg : ClientConfig) (batchOracle : Nat → FetchOutcome)
    (drainOutcome : FetchOutcome) (st : ClientState) : ClientState × Nat :=
  let st0 := { st with batchTimer := false, bufferRetryTimer := false }
  let p1 :=
    if st0.batchQueue.length > 0 then sendBatch cfg batchOracle st0 else (st0, 0)
  let p2 :=
    if p1.1.failedLogsBuffer.length > 0 && p1.1.isTokenValid then
      retryFailedLogs cfg drainOutcome p1.1
    else (p1.1, 0, false)
  (p2.1, p1.2 + p2.2.1)

/-! ## The formatter and `log` -/

/-- A JS primitive value appearing in a (shallow) log record. -/
inductive JsPrim where
  | str (s : String)
  | num (n : Int)
  | boolean (b : Bool)
deriving DecidableEq

/-- `type LoggableData = string | number | boolean | object | unknown[]`.
`circularObj` is the concrete circular object `const a = {}; a.self = a`: its
property graph reaches itself, which is not representable as a finite tree,
hence a dedicated constructor.  `JSON.stringify` throws a `TypeError` on
it. -/
inductive LoggableData where
  | prim (p : JsPrim)
  | obj (fields : List (String × JsPrim))
  | circularObj
  | arr (items : List LoggableData)

/-- JS template interpolation / `String()` of a primitive. -/
def primToString : JsPrim → String
  | .str s => s
  | .num n => toString n
  | .boolean b => cond b "true" "false"

/-- JSON rendering of a primitive (string escaping plays no role here). -/
def primToJson : JsPrim → String
  | .str s => "\"" ++ s ++ "\""
  | .num n => toString n
  | .boolean b => cond b "true" "false"

mutual

/-- `JSON.stringify(data)`: errors are the thrown `TypeError`'s message.  On
the circular object it throws `TypeError: Converting circular structure to
JSON ...`. -/
def jsonStringify : LoggableData → Except String String
  | .prim p => .ok (primToJson p)
  | .obj fields =>
    .ok ("\x7b" ++
      String.intercalate ","
        (fields.map (fun kv => "\"" ++ kv.1 ++ "\":" ++ primToJson kv.2)) ++
      "\x7d")
  | .circularObj => .error "Converting circular structure to JSON"
  | .arr items =>
    match jsonStringifyList items with
    | .ok parts => .ok ("[" ++ String.intercalate "," parts ++ "]")
    | .error e => .error e

/-- `JSON.stringify` over the elements of an array (first failure, if any,
propagates). -/
def jsonStringifyList : List LoggableData → Except String (List String)
  | [] => .ok []
  | x :: xs =>
    match jsonStringify x with
    | .error e => .error e
    | .ok s =>
      match jsonStringifyList xs with
      | .error e => .error e
      | .ok rest => .ok (s :: rest)

end

mutual

/-- JS `String(value)` coercion as it appears for entry values in text
mode. -/
def jsToString : LoggableData → String
  | .prim p => primToString p
  | .obj _ => "[object Object]"
  | .circularObj => "[object Object]"
  | .arr items => String.intercalate "," (jsToStringList items)

/-- JS `String()` of each array element (arrays stringify as the comma join
of their elements). -/
def jsToStringList : List LoggableData → List String
  | [] => []
  | x :: xs => jsToString x :: jsToStringList xs

end

/-- `private formatLogData(data: LoggableData): string`.  In JSON mode
`JSON.stringify`, rethrowing a circular-structure `TypeError` as the
dedicated message; otherwise objects (JS `typeof data === "object"`, which
includes arrays, whose `Object.entries` enumerates indices, and the circular
object, whose only entry is its self-reference) become comma-joined
`key=value` text and primitives pass through `String(data)`.  Thrown errors
are returned as `Except.error` with the thrown message. -/
def formatLogData (cfg : ClientConfig) (data : LoggableData) : Except String String :=
  if cfg.json then
    match jsonStringify data with
    | .ok s => .ok s
    | .error m =>
      if includes m "circular" then
        .error "Circular references detected in log data. Please ensure your log data does not contain circular references."
      else
        .error m
  else
    match data with
    | .obj fields =>
      .ok (String.intercalate ","
        (fields.map (fun kv => kv.1 ++ "=" ++ primToString kv.2)))
    | .arr items =>
      .ok (String.intercalate ","
        ((items.enum).map (fun iv => toString iv.1 ++ "=" ++ jsToString iv.2)))
    | .circularObj => .ok ("self=" ++ "[object Object]")
    | .prim p => .ok (primToString p)

/-- `formatLogData` over a bulk-submitted array
(`data.map(item => this.formatLogData(item))`, first throw propagates). -/
def formatLogDataList (cfg : ClientConfig) : List LoggableData → Except String (List String)
  | [] => .ok []
  | x :: xs =>
    match formatLogData cfg x with
    | .error e => .error e
    | .ok s =>
      match formatLogDataList cfg xs with
      | .error e => .error e
      | .ok rest => .ok (s :: rest)

/-- `private truncateLargeMessage(message: string)` as it acts on Lean
strings (see `truncateLargeMessage` below for the code-unit-level analysis):
`Buffer.byteLength` is the UTF-8 byte size and `message.slice(0, EVENT_SIZE)`
keeps the first `EVENT_SIZE` character positions. -/
def truncateLargeMessageStr (message : String) : String × Bool :=
  let bytesLength := message.utf8ByteSize
  let isMessageTruncated := bytesLength > EVENT_SIZE
  if isMessageTruncated then (message.take EVENT_SIZE, true)
  else (message, false)

/-- What occupies the second (`tags`) parameter of `log`: an array of tags,
or a function (JS lets the caller pass the callback there). -/
inductive TagsArg where
  | tagList (ts : List String)
  | fn
deriving DecidableEq

/-- Observable outcome of one `log()` call: the client state afterwards, the
arguments the callback was invoked with (`none` when it was not invoked;
`Except.ok none` models `callback(null, null)`, `Except.ok (some body)`
models `callback(null, body)`), the bodies emitted as `log` delivery events
from the immediate-mode path, the per-request tags resolved for an
immediate-mode send, and the number of network attempts performed. -/
structure LogResult where
  state : ClientState
  cbCall : Option (Except String (Option String))
  emitted : List String
  requestTags : List String
  attempts : Nat
deriving DecidableEq

/-- The formatting step of `log`: a bulk-mode array submission maps
`formatLogData` over the items and joins with `"\n"`; everything else goes
through `formatLogData` directly. -/
def logFormat (cfg : ClientConfig) (data : LoggableData) : Except String String :=
  match cfg.isBulk, data with
  | true, .arr items =>
    match formatLogDataList cfg items with
    | .ok parts => .ok (String.intercalate "\n" parts)
    | .error e => .error e
  | _, _ => formatLogData cfg data

/-- `public log(data, tags?, callback?)`.  The `tags`/`callback` arguments
are modelled by `tagsArg` (what stands in the second position) and
`hasCallback` (whether a function stands in the third).  Mirrors the source:
argument normalisation, the `isTokenValid` short-circuit, formatting (bulk
arrays map-join with `"\n"`), truncation, then either the batch queue (with
`callback(null, null)`) or an immediate `sendWithRetry` whose callback and
`log`-event behaviour depends on the settled result; every thrown formatting
error is caught and surfaced as `Unspecified error from Loggly: <error>`. -/
def log (cfg : ClientConfig) (oracle : Nat → FetchOutcome) (data : LoggableData)
    (tagsArg : Option TagsArg) (hasCallback : Bool) (st : ClientState) : LogResult :=
  -- handle case where tags is actually the callback
  let norm :=
    if !hasCallback && tagsArg == some TagsArg.fn then (none, true)
    else (tagsArg, hasCallback)
  let tagsArg := norm.1
  let hasCallback := norm.2
  if !st.isTokenValid then
    { state := st
      cbCall := if hasCallback then some (.error "Invalid token - authentication failed") else none
      emitted := []
      requestTags := []
      attempts := 0 }
  else
    match logFormat cfg data with
    | .error e =>
      { state := st
        cbCall :=
          if hasCallback then
            some (.error ("Unspecified error from Loggly: " ++ errorToString e))
          else none
        emitted := []
        requestTags := []
        attempts := 0 }
    | .ok formattedData =>
      let formattedData := (truncateLargeMessageStr formattedData).1
      if cfg.isBulk then
        let (st1, a) := addToBatchQueue cfg oracle formattedData st
        { state := st1
          cbCall := if hasCallback then some (.ok none) else none
          emitted := []
          requestTags := []
          attempts := a }
      else
        let tags := match tagsArg with | some (.tagList ts) => ts | _ => []
        let r := sendWithRetry cfg formattedData tags oracle 1 initialRetryDelay st
        match r.result with
        | .ok resp =>
          if resp.statusCode == 200 then
            { state := r.state
              cbCall := if hasCallback then some (.ok (some resp.response)) else none
              emitted := [resp.response]
              requestTags := tags
              attempts := r.attemptsMade }
          else
            -- `console.error` only: no callback invocation, no emission
            { state := r.state
              cbCall := none
              emitted := []
              requestTags := tags
              attempts := r.attemptsMade }
        | .error e =>
          { state := r.state
            cbCall :=
              if hasCallback then
                some (.error ("Unspecified error from Loggly: " ++ errorToString e))
              else none
            emitted := []
            requestTags := tags
            attempts := r.attemptsMade }

/-! ## Flush-trigger interleaving (the synchronous prefix of `sendBatch`)

`sendBatch` is `async`, but everything up to (and including) the
capture-and-clear of `this.batchQueue` runs synchronously before its first
`await` (the network call inside `sendWithRetry`).  Under the JS
single-threaded model, these synchronous prefixes of the two triggers — the
5000 ms timer callback and the size-threshold path inside `addToBatchQueue` —
never interleave with each other.  To reason about which entries each flush
captures, entries are instrumented with the sequence number they receive on
enqueue; `BatchState.next` counts enqueues. -/

/-- Instrumented batch-queue state: the queued entry ids, whether the batch
timer handle is set, and the next sequence number. -/
structure BatchState where
  queue : List Nat := []
  timer : Bool := false
  next : Nat := 0
deriving DecidableEq

/-- The synchronous prefix of `sendBatch`: cancel the pending timer, then —
unless the queue is empty, in which case nothing is captured and no network
activity follows — capture the queue and clear it.  Everything here happens
before the first suspension point; the returned capture is what the rest of
`sendBatch` later hands to the network. -/
def sendBatchCapture (st : BatchState) : BatchState × Option (List Nat) :=
  let st := { st with timer := false }
  if st.queue.isEmpty then (st, none)
  else ({ st with queue := [] }, some st.queue)

/-- The two events that can drive the batch queue: `addToBatchQueue` for one
entry (which starts the timer if unset and triggers the threshold flush at
length 100), and the timer callback firing (which runs `sendBatch`). -/
inductive BatchEvent where
  | enq
  | timerFire
deriving DecidableEq

/-- One event step; the second component is the snapshot captured for
sending, when a flush ran and the queue was non-empty. -/
def batchStep (st : BatchState) : BatchEvent → BatchState × Option (List Nat)
  | .enq =>
    let st := { st with queue := st.queue ++ [st.next], next := st.next + 1 }
    let st := if st.timer then st else { st with timer := true }
    if st.queue.length ≥ 100 then sendBatchCapture st else (st, none)
  | .timerFire => sendBatchCapture st

/-- The zero-or-one captured snapshots of one step, as a list. -/
def capturedList (o : Option (List Nat)) : List (List Nat) := o.elim [] (fun b => [b])

/-- Run a sequence of events from a state, collecting the captured snapshots
in the order the flushes ran. -/
def runBatch (st : BatchState) : List BatchEvent → BatchState × List (List Nat)
  | [] => (st, [])
  | ev :: evs =>
    let s := batchStep st ev
    let r := runBatch s.1 evs
    (r.1, capturedList s.2 ++ r.2)

/-- The number of `enq` events in a trace (each assigns one fresh id). -/
def countEnq : List BatchEvent → Nat
  | [] => 0
  | .enq :: evs => countEnq evs + 1
  | .timerFire :: evs => countEnq evs

/-! ## Byte-level view of `truncateLargeMessage`

For the 1 MB guard, a JS string is modelled as its sequence of UTF-16 code
units, each recorded as the number of bytes it contributes to the UTF-8
encoding (1 for ASCII; 2 or 3 for other basic-plane characters — the euro
sign `€` is one code unit of 3 bytes).  `Buffer.byteLength(message)` is the
sum of the widths, while `message.slice(0, EVENT_SIZE)` keeps the first
`EVENT_SIZE` code units regardless of their widths. -/

/-- `Buffer.byteLength(message)` — UTF-8 byte length. -/
def jsByteLength (units : List Nat) : Nat := units.sum

/-- `private truncateLargeMessage(message: string)`: compare the byte length
against `EVENT_SIZE`, and on overflow return `message.slice(0, EVENT_SIZE)`
(a code-unit count!) flagged as truncated. -/
def truncateLargeMessage (units : List Nat) : List Nat × Bool :=
  let bytesLength := jsByteLength units
  let isMessageTruncated := bytesLength > EVENT_SIZE
  if isMessageTruncated then (units.take EVENT_SIZE, true)
  else (units, false)

/-! ## The engine event loop

Everything that can happen to a `LogglyClient` after construction is one of:
a `log()` call, the 5000 ms batch timer firing (`sendBatch`), the buffer
retry interval firing (`retryFailedLogs`), or a `flush()` call.  `stepEvent`
is the resulting state transition (each event carrying the transport
outcomes its network attempts would observe). -/

/-- One externally triggered engine event. -/
inductive ClientEvent where
  | logEv (data : LoggableData) (tagsArg : Option TagsArg) (hasCallback : Bool)
      (oracle : Nat → FetchOutcome)
  | batchTimerFire (oracle : Nat → FetchOutcome)
  | bufferTimerFire (o : FetchOutcome)
  | flushEv (batchOracle : Nat → FetchOutcome) (drainOutcome : FetchOutcome)

/-- The state transition of one engine event. -/
def stepEvent (cfg : ClientConfig) (st : ClientState) : ClientEvent → ClientState
  | .logEv data tagsArg hasCallback oracle =>
    (log cfg oracle data tagsArg hasCallback st).state
  | .batchTimerFire oracle => (sendBatch cfg oracle st).1
  | .bufferTimerFire o => (retryFailedLogs cfg o st).1
  | .flushEv batchOracle drainOutcome => (flush cfg batchOracle drainOutcome st).1

/-! ## Proofs -/

/-- `addToFailedBuffer` always keeps exactly the newest entries of the
concatenation `buffer ++ messages` that fit in the capacity: the oldest
`buffer.length + messages.length - size` entries (truncated subtraction) are
evicted from the front. -/
theorem addToFailedBuffer_eq_drop (size : Nat) (buffer messages : List String) :
    addToFailedBuffer size buffer messages =
      (buffer ++ messages).drop (buffer.length + messages.length - size) := by
  unfold addToFailedBuffer
  by_cases h : buffer.length + messages.length > size
  · rw [if_pos h]
    by_cases h2 : messages.length ≤ size
    · rw [if_pos (by simp only [Bool.and_eq_true, decide_eq_true_eq]; omega)]
      rw [show ((buffer.length : Int) + messages.length - size).toNat
            = buffer.length + messages.length - size from by omega]
      rw [List.drop_append_of_le_length (by omega)]
    · rw [if_neg (by simp only [Bool.and_eq_true, decide_eq_true_eq]; omega)]
      rw [if_pos (by omega)]
      rw [show (max 0 ((messages.length : Int) - size)).toNat
            = messages.length - size from by omega]
      have hk : buffer.length ≤ buffer.length + messages.length - size := by omega
      rw [List.drop_append_eq_append_drop, List.drop_eq_nil_of_le hk]
      simp only [List.nil_append]
      congr 1
      omega
  · rw [if_neg h]
    rw [show buffer.length + messages.length - size = 0 from by omega, List.drop_zero]

/-- One `addToFailedBuffer` call never leaves more than `size` entries. -/
theorem addToFailedBuffer_length_le (size : Nat) (buffer messages : List String) :
    (addToFailedBuffer size buffer messages).length ≤ size := by
  rw [addToFailedBuffer_eq_drop]
  simp only [List.length_drop, List.length_append]
  omega

/-- The capacity bound is preserved along any sequence of calls. -/
theorem addToFailedBuffer_foldl_length_le (size : Nat)
    (batches : List (List String)) :
    ∀ buffer : List String, buffer.length ≤ size →
      ((batches.foldl (fun b m => addToFailedBuffer size b m) buffer).length ≤ size) := by
  induction batches with
  | nil => intro buffer hb; simpa using hb
  | cons b bs ih =>
    intro buffer _
    simpa using ih (addToFailedBuffer size buffer b) (addToFailedBuffer_length_le size buffer b)

/-- The synchronous flush prefix hands back exactly the queue it found:
captured snapshot (if any) followed by the remaining queue (empty after a
capture) is the original queue, and `next` is untouched. -/
theorem sendBatchCapture_flatten (st : BatchState) :
    ((sendBatchCapture st).2.elim [] id) ++ (sendBatchCapture st).1.queue = st.queue
    ∧ (sendBatchCapture st).1.next = st.next := by
  unfold sendBatchCapture
  by_cases h : st.queue.isEmpty
  · simp [h, List.isEmpty_iff.mp h]
  · simp [h]

/-- One enqueue step conserves entries: what is captured plus what remains
queued is the old queue with the fresh id appended. -/
theorem batchStep_enq_flatten (st : BatchState) :
    ((batchStep st .enq).2.elim [] id) ++ (batchStep st .enq).1.queue
      = st.queue ++ [st.next]
    ∧ (batchStep st .enq).1.next = st.next + 1 := by
  have key : ∀ s : BatchState, s.queue = st.queue ++ [st.next] → s.next = st.next + 1 →
      ((sendBatchCapture s).2.elim [] id) ++ (sendBatchCapture s).1.queue
        = st.queue ++ [st.next]
      ∧ (sendBatchCapture s).1.next = st.next + 1 := by
    intro s h1 h2
    obtain ⟨a, b⟩ := sendBatchCapture_flatten s
    rw [h1] at a
    rw [h2] at b
    exact ⟨a, b⟩
  simp only [batchStep]
  split <;> split
  · exact key _ rfl rfl
  · simp
  · exact key _ rfl rfl
  · simp

/-- A timer-fire step conserves entries and allocates no id. -/
theorem batchStep_timer_flatten (st : BatchState) :
    ((batchStep st .timerFire).2.elim [] id) ++ (batchStep st .timerFire).1.queue
      = st.queue
    ∧ (batchStep st .timerFire).1.next = st.next := by
  simp only [batchStep]
  exact sendBatchCapture_flatten st

theorem capturedList_flatten (o : Option (List Nat)) :
    (capturedList o).flatten = o.elim [] id := by
  cases o <;> simp [capturedList]

/-- Trace invariant: over any event sequence, the entries of all captured
snapshots (in order) followed by the remaining queue are exactly the old
queue followed by the freshly assigned ids — every enqueued entry is captured
at most once. -/
theorem runBatch_flatten (evs : List BatchEvent) :
    ∀ st : BatchState,
      ((runBatch st evs).2.flatten ++ (runBatch st evs).1.queue
        = st.queue ++ List.range' st.next (countEnq evs))
      ∧ (runBatch st evs).1.next = st.next + countEnq evs := by
  induction evs with
  | nil => intro st; simp [runBatch, countEnq]
  | cons ev evs ih =>
    intro st
    obtain ⟨ih1, ih2⟩ := ih (batchStep st ev).1
    simp only [runBatch, List.flatten_append, capturedList_flatten, List.append_assoc]
    rw [ih1, ih2]
    cases ev with
    | enq =>
      obtain ⟨h1, h2⟩ := batchStep_enq_flatten st
      simp only [countEnq]
      rw [← List.append_assoc, h1, h2]
      constructor
      · rw [List.range'_succ]
        simp
      · omega
    | timerFire =>
      obtain ⟨h1, h2⟩ := batchStep_timer_flatten st
      simp only [countEnq]
      rw [← List.append_assoc, h1, h2]
      exact ⟨rfl, rfl⟩

/-- C4: across every interleaving of timer-triggered and threshold-triggered
flushes, the snapshots captured for sending plus the remaining queue are
exactly the distinct ids assigned at enqueue time, so the flattened captures
are duplicate-free — no snapshot entry is ever handed to the network twice —
and a flush finding an empty queue captures nothing (no network activity),
merely cancelling the timer.  The capture-and-clear happens in
`sendBatchCapture`, the part of `sendBatch` that runs before its first
suspension point. -/
theorem C4_no_double_send_capture_before_await :
    (∀ evs : List BatchEvent,
      (runBatch {} evs).2.flatten ++ (runBatch {} evs).1.queue
        = List.range (runBatch {} evs).1.next)
    ∧ (∀ evs : List BatchEvent, ((runBatch {} evs).2.flatten).Nodup)
    ∧ (∀ (timer : Bool) (next : Nat),
        sendBatchCapture ⟨[], timer, next⟩ = (⟨[], false, next⟩, none)) := by
  have key : ∀ evs : List BatchEvent,
      (runBatch {} evs).2.flatten ++ (runBatch {} evs).1.queue
        = List.range (runBatch {} evs).1.next := by
    intro evs
    obtain ⟨h1, h2⟩ := runBatch_flatten evs {}
    rw [List.range_eq_range', h2]
    simpa using h1
  refine ⟨key, ?_, ?_⟩
  · intro evs
    have hpre : (runBatch {} evs).2.flatten <+: List.range (runBatch {} evs).1.next :=
      ⟨(runBatch {} evs).1.queue, key evs⟩
    exact (List.nodup_range _).sublist hpre.sublist
  · intro timer next
    rfl

/-- C3: for every sequence of `addToFailedBuffer` calls with configured
capacity `size`, the failed-logs buffer length never exceeds `size`; eviction
is FIFO — every call keeps exactly the newest entries of `buffer ++ messages`
that fit, dropping the oldest from the front and never a newer one; and when
a single incoming batch alone exceeds the capacity the buffer ends up holding
exactly the most recent `size` entries of that batch. -/
theorem C3_overflow_buffer_bounded_fifo :
    (∀ (size : Nat) (batches : List (List String)),
      ((batches.foldl (fun b m => addToFailedBuffer size b m) []).length ≤ size))
    ∧ (∀ (size : Nat) (buffer messages : List String),
        addToFailedBuffer size buffer messages =
          (buffer ++ messages).drop (buffer.length + messages.length - size))
    ∧ (∀ (size : Nat) (buffer messages : List String), messages.length > size →
        addToFailedBuffer size buffer messages =
          messages.drop (messages.length - size)) := by
  refine ⟨?_, addToFailedBuffer_eq_drop, ?_⟩
  · intro size batches
    exact addToFailedBuffer_foldl_length_le size batches [] (by simp)
  · intro size buffer messages h
    rw [addToFailedBuffer_eq_drop]
    have hk : buffer.length ≤ buffer.length + messages.length - size := by omega
    rw [List.drop_append_eq_append_drop, List.drop_eq_nil_of_le hk]
    simp only [List.nil_append]
    congr 1
    omega

/-- Witness for C3 at a concrete input: capacity 2, an existing entry, and an
incoming batch of 3 entries — the buffer ends up holding exactly the two
newest entries of the incoming batch. -/
theorem C3_overflow_buffer_bounded_fifo_witness :
    addToFailedBuffer 2 ["a"] ["b", "c", "d"] = ["c", "d"] := by
  have h := C3_overflow_buffer_bounded_fifo.2.2 2 ["a"] ["b", "c", "d"] (by decide)
  exact h.trans (by decide)

/-- `sendToLoggly` never turns an invalid token valid again (the only write
to `isTokenValid` anywhere in the client sets it to `false`). -/
theorem sendToLoggly_token_mono (cfg : ClientConfig) (data : String)
    (tags : List String) (o : FetchOutcome) (st : ClientState)
    (h : st.isTokenValid = false) :
    (sendToLoggly cfg data tags o st).2.isTokenValid = false := by
  unfold sendToLoggly
  cases o with
  | rejected msg => split <;> simp [h]
  | resolved status body =>
    cases hcp : cfg.useProxy <;> simp only [hcp, if_true, if_false, Bool.false_eq_true] <;>
      split <;> try split
    all_goals simp [h]

/-- The retry loop preserves an invalid token across all its attempts. -/
theorem sendWithRetry_token_mono (cfg : ClientConfig) (data : String)
    (tags : List String) (oracle : Nat → FetchOutcome) :
    ∀ (attempt delay : Nat) (st : ClientState), st.isTokenValid = false →
      (sendWithRetry cfg data tags oracle attempt delay st).state.isTokenValid = false := by
  intro attempt delay st
  induction attempt, delay, st using sendWithRetry.induct cfg data tags oracle with
  | case1 a d s resp st1 heq =>
    intro h
    rw [sendWithRetry, heq]
    have := sendToLoggly_token_mono cfg data tags (oracle a) s h
    rw [heq] at this
    exact this
  | case2 a d s msg st1 heq ha =>
    intro h
    rw [sendWithRetry, heq]
    simp only [dif_pos ha]
    have := sendToLoggly_token_mono cfg data tags (oracle a) s h
    rw [heq] at this
    exact this
  | case3 a d s msg st1 heq ha hr =>
    intro h
    rw [sendWithRetry, heq]
    simp only [dif_neg ha, dif_pos hr]
    have := sendToLoggly_token_mono cfg data tags (oracle a) s h
    rw [heq] at this
    exact this
  | case4 a d s msg st1 heq ha hr ih =>
    intro h
    rw [sendWithRetry, heq]
    simp only [dif_neg ha, dif_neg hr]
    have hst1 : st1.isTokenValid = false := by
      have := sendToLoggly_token_mono cfg data tags (oracle a) s h
      rw [heq] at this
      exact this
    exact ih hst1

/-- With an invalid token, a drain pass is a complete no-op. -/
theorem retryFailedLogs_invalid (cfg : ClientConfig) (o : FetchOutcome)
    (st : ClientState) (h : st.isTokenValid = false) :
    retryFailedLogs cfg o st = (st, 0, false) := by
  unfold retryFailedLogs
  rw [if_pos (by simp [h])]

theorem sendBatch_token_mono (cfg : ClientConfig) (oracle : Nat → FetchOutcome)
    (st : ClientState) (h : st.isTokenValid = false) :
    (sendBatch cfg oracle st).1.isTokenValid = false := by
  simp only [sendBatch]
  split
  · simpa using h
  · split
    · exact sendWithRetry_token_mono cfg _ [] oracle 1 initialRetryDelay _ (by simpa using h)
    · have := sendWithRetry_token_mono cfg (joinNewline ({ st with batchTimer := false } : ClientState).batchQueue) [] oracle 1 initialRetryDelay { st with batchTimer := false, eventId := ({ st with batchTimer := false } : ClientState).eventId + 1, batchQueue := [] } (by simpa using h)
      simpa using this

theorem addToBatchQueue_token_mono (cfg : ClientConfig) (oracle : Nat → FetchOutcome)
    (message : String) (st : ClientState) (h : st.isTokenValid = false) :
    (addToBatchQueue cfg oracle message st).1.isTokenValid = false := by
  simp only [addToBatchQueue]
  split <;> split
  all_goals first
    | exact sendBatch_token_mono cfg oracle _ (by simpa using h)
    | simpa using h

/-- With an invalid token, `log` fails synchronously through the callback and
leaves the state untouched, making no network attempt. -/
theorem log_invalid_token (cfg : ClientConfig) (oracle : Nat → FetchOutcome)
    (data : LoggableData) (tagsArg : Option TagsArg) (st : ClientState)
    (h : st.isTokenValid = false) :
    log cfg oracle data tagsArg true st =
      { state := st, cbCall := some (.error "Invalid token - authentication failed"),
        emitted := [], requestTags := [], attempts := 0 } := by
  unfold log
  simp [h]

theorem log_state_invalid (cfg : ClientConfig) (oracle : Nat → FetchOutcome)
    (data : LoggableData) (tagsArg : Option TagsArg) (hasCallback : Bool)
    (st : ClientState) (h : st.isTokenValid = false) :
    (log cfg oracle data tagsArg hasCallback st).state = st := by
  by_cases hc : (!hasCallback && tagsArg == some TagsArg.fn) = true <;>
    simp [log, hc, h]

theorem flush_token_mono (cfg : ClientConfig) (batchOracle : Nat → FetchOutcome)
    (drainOutcome : FetchOutcome) (st : ClientState) (h : st.isTokenValid = false) :
    (flush cfg batchOracle drainOutcome st).1.isTokenValid = false := by
  simp only [flush]
  by_cases hq : ({ st with batchTimer := false, bufferRetryTimer := false } :
      ClientState).batchQueue.length > 0
  · rw [if_pos hq]
    have hb := sendBatch_token_mono cfg batchOracle
      { st with batchTimer := false, bufferRetryTimer := false } (by simpa using h)
    simp [hb]
  · rw [if_neg hq]
    simp [h]

/-- No engine event can transition the token flag back from invalid. -/
theorem stepEvent_token_mono (cfg : ClientConfig) (st : ClientState) (ev : ClientEvent)
    (h : st.isTokenValid = false) :
    (stepEvent cfg st ev).isTokenValid = false := by
  cases ev with
  | logEv data tagsArg hasCallback oracle =>
    simp only [stepEvent]
    rw [log_state_invalid cfg oracle data tagsArg hasCallback st h]
    exact h
  | batchTimerFire oracle => exact sendBatch_token_mono cfg oracle st h
  | bufferTimerFire o =>
    simp only [stepEvent]
    rw [retryFailedLogs_invalid cfg o st h]
    exact h
  | flushEv batchOracle drainOutcome =>
    exact flush_token_mono cfg batchOracle drainOutcome st h

/-- A 401/403 response makes `sendToLoggly` clear the token flag and throw
the authentication error. -/
theorem sendToLoggly_auth (cfg : ClientConfig) (data : String) (tags : List String)
    (status : Nat) (body : String) (st : ClientState)
    (h : status = 401 ∨ status = 403) :
    (sendToLoggly cfg data tags (.resolved status body) st).1
        = .error "Authentication failed - invalid token"
    ∧ (sendToLoggly cfg data tags (.resolved status body) st).2.isTokenValid = false := by
  have hcond : (status == 401 || status == 403) = true := by
    rcases h with h | h <;> simp [h]
  unfold sendToLoggly
  cases hcp : cfg.useProxy <;> simp [hcp, hcond]

/-- A first attempt failing with a non-retryable error makes `sendWithRetry`
rethrow immediately: exactly one network attempt, no waiting. -/
theorem sendWithRetry_non_retryable (cfg : ClientConfig) (data : String)
    (tags : List String) (oracle : Nat → FetchOutcome) (attempt delay : Nat)
    (st : ClientState) (msg : String)
    (h1 : (sendToLoggly cfg data tags (oracle attempt) st).1 = .error msg)
    (h2 : isRetryableError msg = false) :
    sendWithRetry cfg data tags oracle attempt delay st
      = ⟨.error msg, (sendToLoggly cfg data tags (oracle attempt) st).2, [], 1⟩ := by
  rw [sendWithRetry]
  split
  · next resp st1 heq =>
    rw [heq] at h1
    simp at h1
  · next m st1 heq =>
    have hm : m = msg := by
      rw [heq] at h1
      simpa using h1
    subst hm
    by_cases ha : attempt ≥ maxRetries
    · rw [dif_pos ha, heq]
    · rw [dif_neg ha, dif_pos (by rw [h2]; simp), heq]

/-- C2: a 401/403 response trips the token-invalid flag and fails the send
with the authentication error after exactly one attempt (never retried); no
engine event ever resets the flag; while invalid, `log()` fails synchronously
through the callback with the authentication error, changes no state and
makes no network attempt, and `retryFailedLogs` is skipped entirely. -/
theorem C2_auth_invalid_is_terminal :
    (∀ (cfg : ClientConfig) (data : String) (tags : List String) (status : Nat)
        (body : String) (st : ClientState), status = 401 ∨ status = 403 →
      (sendToLoggly cfg data tags (.resolved status body) st).1
          = .error "Authentication failed - invalid token"
      ∧ (sendToLoggly cfg data tags (.resolved status body) st).2.isTokenValid = false)
    ∧ isRetryableError "Authentication failed - invalid token" = false
    ∧ (∀ (cfg : ClientConfig) (data : String) (tags : List String)
        (oracle : Nat → FetchOutcome) (attempt delay : Nat) (st : ClientState)
        (status : Nat) (body : String),
        oracle attempt = .resolved status body → status = 401 ∨ status = 403 →
        (sendWithRetry cfg data tags oracle attempt delay st).attemptsMade = 1
        ∧ (sendWithRetry cfg data tags oracle attempt delay st).result
            = .error "Authentication failed - invalid token"
        ∧ (sendWithRetry cfg data tags oracle attempt delay st).state.isTokenValid = false)
    ∧ (∀ (cfg : ClientConfig) (st : ClientState) (ev : ClientEvent),
        st.isTokenValid = false → (stepEvent cfg st ev).isTokenValid = false)
    ∧ (∀ (cfg : ClientConfig) (oracle : Nat → FetchOutcome) (data : LoggableData)
        (tagsArg : Option TagsArg) (st : ClientState), st.isTokenValid = false →
        log cfg oracle data tagsArg true st
          = { state := st,
              cbCall := some (.error "Invalid token - authentication failed"),
              emitted := [], requestTags := [], attempts := 0 })
    ∧ (∀ (cfg : ClientConfig) (o : FetchOutcome) (st : ClientState),
        st.isTokenValid = false → retryFailedLogs cfg o st = (st, 0, false)) := by
  refine ⟨fun cfg data tags status body st h => sendToLoggly_auth cfg data tags status body st h,
    by decide, ?_, stepEvent_token_mono, log_invalid_token, retryFailedLogs_invalid⟩
  intro cfg data tags oracle attempt delay st status body horacle hstatus
  have h1 : (sendToLoggly cfg data tags (oracle attempt) st).1
      = .error "Authentication failed - invalid token" := by
    rw [horacle]
    exact (sendToLoggly_auth cfg data tags status body st hstatus).1
  have heqn := sendWithRetry_non_retryable cfg data tags oracle attempt delay st _ h1 (by decide)
  refine ⟨by rw [heqn], by rw [heqn], ?_⟩
  rw [heqn]
  show (sendToLoggly cfg data tags (oracle attempt) st).2.isTokenValid = false
  rw [horacle]
  exact (sendToLoggly_auth cfg data tags status body st hstatus).2

/-- Witness for C2 at concrete inputs: a 401 response on a default state, a
403 first attempt through the retry loop, and an invalid-token state driven
through a drain event, a `log` call, and a drain pass. -/
theorem C2_auth_invalid_is_terminal_witness :
    (sendToLoggly {} "payload" [] (.resolved 401 "denied") {}).2.isTokenValid = false
    ∧ (sendWithRetry {} "payload" [] (fun _ => .resolved 403 "denied") 1 2000 {}).attemptsMade = 1
    ∧ (stepEvent {} { isTokenValid := false } (.bufferTimerFire (.resolved 200 "ok"))).isTokenValid = false
    ∧ log {} (fun _ => .resolved 200 "ok") (.prim (.str "m")) none true { isTokenValid := false }
        = { state := { isTokenValid := false },
            cbCall := some (.error "Invalid token - authentication failed"),
            emitted := [], requestTags := [], attempts := 0 }
    ∧ retryFailedLogs {} (.resolved 200 "ok") { failedLogsBuffer := ["x"], isTokenValid := false }
        = ({ failedLogsBuffer := ["x"], isTokenValid := false }, 0, false) :=
  ⟨(C2_auth_invalid_is_terminal.1 {} "payload" [] 401 "denied" {} (Or.inl rfl)).2,
   (C2_auth_invalid_is_terminal.2.2.1 {} "payload" [] (fun _ => .resolved 403 "denied")
      1 2000 {} 403 "denied" rfl (Or.inr rfl)).1,
   C2_auth_invalid_is_terminal.2.2.2.1 {} { isTokenValid := false }
      (.bufferTimerFire (.resolved 200 "ok")) rfl,
   C2_auth_invalid_is_terminal.2.2.2.2.1 {} (fun _ => .resolved 200 "ok")
      (.prim (.str "m")) none { isTokenValid := false } rfl,
   C2_auth_invalid_is_terminal.2.2.2.2.2 {} (.resolved 200 "ok")
      { failedLogsBuffer := ["x"], isTokenValid := false } rfl⟩

theorem includes_circular :
    includes "Converting circular structure to JSON" "circular" = true := by decide

/-- In JSON mode the circular-structure `TypeError` is rethrown as the
dedicated circular-references error. -/
theorem formatLogData_circular (cfg : ClientConfig) (hjson : cfg.json = true) :
    formatLogData cfg .circularObj
      = .error "Circular references detected in log data. Please ensure your log data does not contain circular references." := by
  simp [formatLogData, hjson, jsonStringify, includes_circular]

/-- A formatting error thrown inside `log` is caught by its outer `catch`:
the callback gets `Unspecified error from Loggly: <error>`, nothing is
enqueued anywhere, and no network attempt is made. -/
theorem log_format_error (cfg : ClientConfig) (oracle : Nat → FetchOutcome)
    (data : LoggableData) (tagsArg : Option TagsArg) (st : ClientState) (e : String)
    (ht : st.isTokenValid = true) (hf : logFormat cfg data = .error e) :
    log cfg oracle data tagsArg true st =
      { state := st,
        cbCall := some (.error ("Unspecified error from Loggly: " ++ errorToString e)),
        emitted := [], requestTags := [], attempts := 0 } := by
  unfold log
  simp [ht, hf]

/-- Under JSON mode, formatting the circular record — alone or inside a bulk
array submission — throws the circular-references error, in both bulk and
immediate configurations. -/
theorem logFormat_circular (cfg : ClientConfig) (hjson : cfg.json = true) (p : JsPrim) :
    logFormat cfg .circularObj
        = .error "Circular references detected in log data. Please ensure your log data does not contain circular references."
    ∧ logFormat cfg (.arr [.prim p, .circularObj])
        = .error "Circular references detected in log data. Please ensure your log data does not contain circular references." := by
  constructor
  · unfold logFormat
    cases hb : cfg.isBulk <;> simp [formatLogData_circular cfg hjson]
  · unfold logFormat
    cases hb : cfg.isBulk
    · simp [formatLogData, hjson, jsonStringify, jsonStringifyList, includes_circular]
    · simp [formatLogDataList, formatLogData, hjson, jsonStringify, jsonStringifyList,
        includes_circular]

/-- C7: in JSON mode a self-referential (circular) record makes
`JSON.stringify` throw; `log()` catches it and surfaces the serialization
error synchronously through the callback — the entry enters neither the
batch queue nor the overflow buffer (the state is untouched), no network
attempt is made, and `log` returns normally instead of throwing (it is a
total function here by construction).  The same holds when the circular
record sits inside a bulk array submission. -/
theorem C7_circular_json_fails_synchronously :
    ∀ (cfg : ClientConfig) (oracle : Nat → FetchOutcome) (tagsArg : Option TagsArg)
      (st : ClientState) (p : JsPrim), cfg.json = true → st.isTokenValid = true →
      jsonStringify .circularObj = .error "Converting circular structure to JSON"
      ∧ log cfg oracle .circularObj tagsArg true st
          = { state := st,
              cbCall := some (.error "Unspecified error from Loggly: Error: Circular references detected in log data. Please ensure your log data does not contain circular references."),
              emitted := [], requestTags := [], attempts := 0 }
      ∧ log cfg oracle (.arr [.prim p, .circularObj]) tagsArg true st
          = { state := st,
              cbCall := some (.error "Unspecified error from Loggly: Error: Circular references detected in log data. Please ensure your log data does not contain circular references."),
              emitted := [], requestTags := [], attempts := 0 } := by
  intro cfg oracle tagsArg st p hjson ht
  obtain ⟨h1, h2⟩ := logFormat_circular cfg hjson p
  refine ⟨rfl, ?_, ?_⟩
  · exact (log_format_error cfg oracle _ tagsArg st _ ht h1).trans (by rfl)
  · exact (log_format_error cfg oracle _ tagsArg st _ ht h2).trans (by rfl)

/-- Witness for C7: a JSON-mode client with a valid token logging the
circular record. -/
theorem C7_circular_json_fails_synchronously_witness :
    log { json := true } (fun _ => .resolved 200 "ok") .circularObj none true {}
      = { state := {},
          cbCall := some (.error "Unspecified error from Loggly: Error: Circular references detected in log data. Please ensure your log data does not contain circular references."),
          emitted := [], requestTags := [], attempts := 0 }
    ∧ ({} : ClientState).isTokenValid = true :=
  ⟨(C7_circular_json_fails_synchronously { json := true } (fun _ => .resolved 200 "ok")
      none {} (.str "a") rfl rfl).2.1, rfl⟩

/-- C6 (code bug): `truncateLargeMessage` detects oversize by UTF-8 *byte*
length but truncates with `message.slice(0, EVENT_SIZE)`, which counts UTF-16
*code units*.  For a message of 500001 three-byte characters (1500003 bytes),
the guard fires — the message is flagged as truncated — yet `slice` keeps all
500001 code units, so the returned payload is unchanged and still 1500003
bytes, exceeding the 1,000,000-byte limit the function is documented to
enforce. -/
theorem C6_truncation_counts_code_units_not_bytes :
    jsByteLength (List.replicate 500001 3) = 1500003
    ∧ truncateLargeMessage (List.replicate 500001 3) = (List.replicate 500001 3, true)
    ∧ jsByteLength (truncateLargeMessage (List.replicate 500001 3)).1 > EVENT_SIZE := by
  have hsum : jsByteLength (List.replicate 500001 3) = 1500003 := by
    unfold jsByteLength
    rw [List.sum_replicate, smul_eq_mul]
  have hgt : jsByteLength (List.replicate 500001 3) > EVENT_SIZE := by
    rw [hsum]
    norm_num [EVENT_SIZE]
  have hlen : (List.replicate 500001 3).length ≤ EVENT_SIZE := by
    rw [List.length_replicate]
    norm_num [EVENT_SIZE]
  have htr : truncateLargeMessage (List.replicate 500001 3)
      = (List.replicate 500001 3, true) := by
    unfold truncateLargeMessage
    rw [if_pos hgt, List.take_of_length_le hlen]
  refine ⟨hsum, htr, ?_⟩
  rw [htr]
  exact hgt

/-- C1 (code bug): the retry classifier looks for the substrings
`"status: 5"` / `"status: 429"`, but the errors this client throws for HTTP
failures read `"HTTP Error: <status>"`, which never matches — so 5xx and 429
responses fail after exactly one attempt with no backoff, while the listed
network error codes are retried through the full schedule: 5 total attempts
with waits of 2000, 4000, 8000 and 16000 ms, then failure with the last
error. -/
theorem C1_5xx_429_never_retried_network_codes_are :
    sendWithRetry {} "payload" [] (fun _ => .resolved 503 "oops") 1 initialRetryDelay {}
      = ⟨.error "HTTP Error: 503", {}, [], 1⟩
    ∧ sendWithRetry {} "payload" [] (fun _ => .resolved 429 "slow down") 1 initialRetryDelay {}
      = ⟨.error "HTTP Error: 429", {}, [], 1⟩
    ∧ isRetryableError "HTTP Error: 503" = false
    ∧ isRetryableError "HTTP Error: 429" = false
    ∧ sendWithRetry {} "payload" [] (fun _ => .rejected "ETIMEDOUT") 1 initialRetryDelay {}
      = ⟨.error "ETIMEDOUT", {}, [2000, 4000, 8000, 16000], 5⟩ := by
  refine ⟨?_, ?_, by decide, by decide, ?_⟩
  · have h0 : ("HTTP Error: " ++ toString 503) = "HTTP Error: 503" := by rfl
    have h1 : isRetryableError "HTTP Error: 503" = false := by decide
    simp [sendWithRetry, sendToLoggly, respOk, maxRetries, initialRetryDelay, h0, h1]
  · have h0 : ("HTTP Error: " ++ toString 429) = "HTTP Error: 429" := by rfl
    have h1 : isRetryableError "HTTP Error: 429" = false := by decide
    simp [sendWithRetry, sendToLoggly, respOk, maxRetries, initialRetryDelay, h0, h1]
  · have h1 : isRetryableError "ETIMEDOUT" = true := by decide
    simp [sendWithRetry, sendToLoggly, maxRetries, initialRetryDelay, h1]

/-- A resolved response that is neither 401/403 nor outside the 2xx range
returns `{response, statusCode}`; with a proxy configured the proxy
environment variables are removed again on this (and only this) path. -/
theorem sendToLoggly_ok (cfg : ClientConfig) (data : String) (tags : List String)
    (status : Nat) (body : String) (st : ClientState)
    (h1 : (status == 401 || status == 403) = false) (h2 : respOk status = true) :
    sendToLoggly cfg data tags (.resolved status body) st
      = (.ok ⟨body, status⟩, if cfg.useProxy then { st with envProxySet := false } else st) := by
  unfold sendToLoggly
  cases hcp : cfg.useProxy <;> simp [hcp, h1, h2]

/-- A first attempt that resolves successfully settles `sendWithRetry`
immediately: one attempt, no waiting. -/
theorem sendWithRetry_first_ok (cfg : ClientConfig) (data : String) (tags : List String)
    (oracle : Nat → FetchOutcome) (delay : Nat) (st : ClientState)
    (status : Nat) (body : String)
    (horacle : oracle 1 = .resolved status body)
    (h1 : (status == 401 || status == 403) = false) (h2 : respOk status = true) :
    sendWithRetry cfg data tags oracle 1 delay st
      = ⟨.ok ⟨body, status⟩,
         if cfg.useProxy then { st with envProxySet := false } else st, [], 1⟩ := by
  rw [sendWithRetry]
  split
  · next resp st1 heq =>
    rw [horacle, sendToLoggly_ok cfg data tags status body st h1 h2] at heq
    injection heq with h3 h4
    injection h3 with h5
    subst h4
    rw [← h5]
  · next msg st1 heq =>
    rw [horacle, sendToLoggly_ok cfg data tags status body st h1 h2] at heq
    injection heq with h3 h4
    simp at h3

/-- The immediate-mode body of `log` after a successful format: everything
observable is decided by how the `sendWithRetry` call settles. -/
theorem log_nonBulk (cfg : ClientConfig) (oracle : Nat → FetchOutcome)
    (data : LoggableData) (st : ClientState) (f : String)
    (hb : cfg.isBulk = false) (ht : st.isTokenValid = true)
    (hf : logFormat cfg data = .ok f) :
    log cfg oracle data none true st =
      (match (sendWithRetry cfg (truncateLargeMessageStr f).1 [] oracle 1 initialRetryDelay st).result with
       | .ok resp =>
         if resp.statusCode == 200 then
           { state := (sendWithRetry cfg (truncateLargeMessageStr f).1 [] oracle 1 initialRetryDelay st).state
             cbCall := some (.ok (some resp.response))
             emitted := [resp.response]
             requestTags := []
             attempts := (sendWithRetry cfg (truncateLargeMessageStr f).1 [] oracle 1 initialRetryDelay st).attemptsMade }
         else
           { state := (sendWithRetry cfg (truncateLargeMessageStr f).1 [] oracle 1 initialRetryDelay st).state
             cbCall := none
             emitted := []
             requestTags := []
             attempts := (sendWithRetry cfg (truncateLargeMessageStr f).1 [] oracle 1 initialRetryDelay st).attemptsMade }
       | .error e =>
         { state := (sendWithRetry cfg (truncateLargeMessageStr f).1 [] oracle 1 initialRetryDelay st).state
           cbCall := some (.error ("Unspecified error from Loggly: " ++ errorToString e))
           emitted := []
           requestTags := []
           attempts := (sendWithRetry cfg (truncateLargeMessageStr f).1 [] oracle 1 initialRetryDelay st).attemptsMade }) := by
  unfold log
  simp [ht, hf, hb]

/-- C8 (amended): in immediate (non-bulk) mode the callback fires with
`(null, body)` and a `log` delivery event carrying the body is emitted only
when the settled response has status *exactly 200*; a successful response
with any other status (including other 2xx) invokes neither the callback nor
the emission (only a console error); on final failure the callback fires with
the wrapped error and nothing is emitted. -/
theorem C8_immediate_mode_callback_only_on_exact_200 :
    ∀ (cfg : ClientConfig) (oracle : Nat → FetchOutcome) (data : LoggableData)
      (st : ClientState) (f : String),
      cfg.isBulk = false → st.isTokenValid = true → logFormat cfg data = .ok f →
      (∀ body,
        (sendWithRetry cfg (truncateLargeMessageStr f).1 [] oracle 1 initialRetryDelay st).result
            = .ok ⟨body, 200⟩ →
        log cfg oracle data none true st =
          { state := (sendWithRetry cfg (truncateLargeMessageStr f).1 [] oracle 1 initialRetryDelay st).state
            cbCall := some (.ok (some body))
            emitted := [body]
            requestTags := []
            attempts := (sendWithRetry cfg (truncateLargeMessageStr f).1 [] oracle 1 initialRetryDelay st).attemptsMade })
      ∧ (∀ resp,
        (sendWithRetry cfg (truncateLargeMessageStr f).1 [] oracle 1 initialRetryDelay st).result
            = .ok resp → resp.statusCode ≠ 200 →
        log cfg oracle data none true st =
          { state := (sendWithRetry cfg (truncateLargeMessageStr f).1 [] oracle 1 initialRetryDelay st).state
            cbCall := none
            emitted := []
            requestTags := []
            attempts := (sendWithRetry cfg (truncateLargeMessageStr f).1 [] oracle 1 initialRetryDelay st).attemptsMade })
      ∧ (∀ e,
        (sendWithRetry cfg (truncateLargeMessageStr f).1 [] oracle 1 initialRetryDelay st).result
            = .error e →
        log cfg oracle data none true st =
          { state := (sendWithRetry cfg (truncateLargeMessageStr f).1 [] oracle 1 initialRetryDelay st).state
            cbCall := some (.error ("Unspecified error from Loggly: " ++ errorToString e))
            emitted := []
            requestTags := []
            attempts := (sendWithRetry cfg (truncateLargeMessageStr f).1 [] oracle 1 initialRetryDelay st).attemptsMade }) := by
  intro cfg oracle data st f hb ht hf
  refine ⟨?_, ?_, ?_⟩
  · intro body hr
    rw [log_nonBulk cfg oracle data st f hb ht hf, hr]
    simp
  · intro resp hr hne
    rw [log_nonBulk cfg oracle data st f hb ht hf, hr]
    have hbeq : (resp.statusCode == 200) = false := by simpa using hne
    simp [hbeq]
  · intro e hr
    rw [log_nonBulk cfg oracle data st f hb ht hf, hr]

/-- Counterexample for C8 as frozen: a send that succeeds with HTTP 201 —
a 2xx status — produces *no* callback invocation and *no* `log` event in
immediate mode, against the claim that any 2xx fires both. -/
theorem C8_counterexample_non200_2xx_silent :
    (log { isBulk := false } (fun _ => .resolved 201 "created") (.prim (.str "hello")) none true {}).cbCall = none
    ∧ (log { isBulk := false } (fun _ => .resolved 201 "created") (.prim (.str "hello")) none true {}).emitted = []
    ∧ (log { isBulk := false } (fun _ => .resolved 201 "created") (.prim (.str "hello")) none true {}).attempts = 1 := by
  have hfok := sendWithRetry_first_ok { isBulk := false } "hello" []
    (fun _ => .resolved 201 "created") initialRetryDelay {} 201 "created" rfl (by decide) (by decide)
  have hlog := log_nonBulk { isBulk := false } (fun _ => .resolved 201 "created")
    (.prim (.str "hello")) {} "hello" rfl rfl rfl
  rw [show (truncateLargeMessageStr "hello").1 = "hello" from rfl] at hlog
  rw [hlog, hfok]
  refine ⟨rfl, rfl, rfl⟩

/-- Witness for C8 (amended) at a concrete 200 success. -/
theorem C8_immediate_mode_callback_only_on_exact_200_witness :
    log { isBulk := false } (fun _ => .resolved 200 "ok") (.prim (.str "hello")) none true {}
      = { state := {}, cbCall := some (.ok (some "ok")), emitted := ["ok"],
          requestTags := [], attempts := 1 } := by
  have hfok := sendWithRetry_first_ok { isBulk := false } "hello" []
    (fun _ => .resolved 200 "ok") initialRetryDelay {} 200 "ok" rfl (by decide) (by decide)
  have happ := (C8_immediate_mode_callback_only_on_exact_200 { isBulk := false }
    (fun _ => .resolved 200 "ok") (.prim (.str "hello")) {} "hello" rfl rfl rfl).1 "ok"
    (by rw [show (truncateLargeMessageStr "hello").1 = "hello" from rfl, hfok])
  rw [happ]
  rw [show (truncateLargeMessageStr "hello").1 = "hello" from rfl, hfok]
  rfl

/-- C9 (amended): with a proxy configured, a send sets the process-wide proxy
environment variables before the request, but removes them only on the
success path — every failing request (network rejection, 401/403, or any
other non-2xx response) returns with them still set, so a failed send does
leave process-wide state changed. -/
theorem C9_proxy_env_removed_only_on_success :
    ∀ (cfg : ClientConfig) (data : String) (tags : List String) (o : FetchOutcome)
      (st : ClientState), cfg.useProxy = true →
      (∀ resp, (sendToLoggly cfg data tags o st).1 = .ok resp →
          (sendToLoggly cfg data tags o st).2.envProxySet = false)
      ∧ (∀ e, (sendToLoggly cfg data tags o st).1 = .error e →
          (sendToLoggly cfg data tags o st).2.envProxySet = true) := by
  intro cfg data tags o st hcp
  unfold sendToLoggly
  cases o with
  | rejected msg =>
    constructor
    · intro resp h
      simp [hcp] at h
    · intro e h
      simp [hcp]
  | resolved status body =>
    by_cases h1 : (status == 401 || status == 403) = true
    · constructor
      · intro resp h
        simp [hcp, h1] at h
      · intro e h
        simp [hcp, h1]
    · by_cases h2 : respOk status = true
      · constructor
        · intro resp h
          simp [hcp, h1, h2]
        · intro e h
          simp [hcp, h1, h2] at h
      · constructor
        · intro resp h
          simp [hcp, h1, h2] at h
        · intro e h
          simp [hcp, h1, h2]

/-- Counterexample for C9 as frozen: a proxied request failing with HTTP 500
returns with `HTTPS_PROXY`/`HTTP_PROXY` still set (they were clear before the
send), so the variables are *not* restored regardless of success or
failure. -/
theorem C9_counterexample_env_left_set_on_failure :
    (sendToLoggly { useProxy := true } "d" [] (.resolved 500 "oops") {}).2.envProxySet = true
    ∧ ({} : ClientState).envProxySet = false := by
  constructor <;> rfl

/-- Witness for C9 (amended): a 200 response removes the variables, a 500
response leaves them set. -/
theorem C9_proxy_env_removed_only_on_success_witness :
    (sendToLoggly { useProxy := true } "d" [] (.resolved 200 "ok") {}).2.envProxySet = false
    ∧ (sendToLoggly { useProxy := true } "d" [] (.resolved 500 "oops") {}).2.envProxySet = true := by
  constructor
  · exact (C9_proxy_env_removed_only_on_success { useProxy := true } "d" []
      (.resolved 200 "ok") {} rfl).1 ⟨"ok", 200⟩ (by rfl)
  · exact (C9_proxy_env_removed_only_on_success { useProxy := true } "d" []
      (.resolved 500 "oops") {} rfl).2 "HTTP Error: 500" (by rfl)

/-- `sendBatch` on an empty queue only cancels the timer: no capture, no
network activity. -/
theorem sendBatch_empty_queue (cfg : ClientConfig) (oracle : Nat → FetchOutcome)
    (st : ClientState) (h : st.batchQueue = []) :
    sendBatch cfg oracle st = ({ st with batchTimer := false }, 0) := by
  simp [sendBatch, h]

/-- A `sendBatch` whose first attempt succeeds with 200 clears the queue,
leaves the timer handles and the failed-logs buffer and the token flag as
they were, after exactly one attempt. -/
theorem sendBatch_success_fields (cfg : ClientConfig) (oracle : Nat → FetchOutcome)
    (body : String) (st : ClientState)
    (horacle : oracle 1 = .resolved 200 body) (hne : ¬ st.batchQueue.isEmpty = true) :
    (sendBatch cfg oracle st).1.batchQueue = []
    ∧ (sendBatch cfg oracle st).1.batchTimer = false
    ∧ (sendBatch cfg oracle st).1.bufferRetryTimer = st.bufferRetryTimer
    ∧ (sendBatch cfg oracle st).1.failedLogsBuffer = st.failedLogsBuffer
    ∧ (sendBatch cfg oracle st).1.isTokenValid = st.isTokenValid := by
  simp only [sendBatch]
  rw [if_neg (by simpa using hne)]
  rw [sendWithRetry_first_ok cfg _ [] oracle initialRetryDelay _ 200 body horacle
    (by decide) (by decide)]
  cases hcp : cfg.useProxy <;> simp [hcp]

/-- One successful (status 200) drain pass removes exactly the first
`batchSize` entries (100 in bulk mode, 1 otherwise) and touches neither the
batch queue nor the timer handles. -/
theorem retryFailedLogs_success (cfg : ClientConfig) (body : String) (s : ClientState)
    (hs : s.isTokenValid = true) (hs2 : ¬ s.failedLogsBuffer.isEmpty = true) :
    (retryFailedLogs cfg (.resolved 200 body) s).1.failedLogsBuffer
        = s.failedLogsBuffer.drop (if cfg.isBulk then 100 else 1)
    ∧ (retryFailedLogs cfg (.resolved 200 body) s).1.batchQueue = s.batchQueue
    ∧ (retryFailedLogs cfg (.resolved 200 body) s).1.batchTimer = s.batchTimer
    ∧ (retryFailedLogs cfg (.resolved 200 body) s).1.bufferRetryTimer = s.bufferRetryTimer := by
  simp only [retryFailedLogs]
  rw [if_neg (by simp [hs, hs2])]
  rw [sendToLoggly_ok cfg _ [] 200 body s (by decide) (by decide)]
  cases hcp : cfg.useProxy <;> simp [hcp]

/-- C5 (amended): with every transport attempt during it succeeding with
status 200 and a valid token, `flush` nulls both timer handles, leaves the
batch queue empty, and removes exactly one drain batch (100 entries in bulk
mode, 1 otherwise) from the failed-logs buffer; the buffer is empty at
completion only when it held at most one drain batch — larger buffers keep
their remainder, to be drained by the follow-up passes `retryFailedLogs`
schedules after `flush` has already completed.  (`flush` is a total function
here, and both its calls are wrapped in `try`/`catch` in the source, so it
never throws.) -/
theorem C5_flush_postconditions :
    ∀ (cfg : ClientConfig) (batchOracle : Nat → FetchOutcome) (body body2 : String)
      (st : ClientState),
      batchOracle 1 = .resolved 200 body → st.isTokenValid = true →
      (flush cfg batchOracle (.resolved 200 body2) st).1.batchTimer = false
      ∧ (flush cfg batchOracle (.resolved 200 body2) st).1.bufferRetryTimer = false
      ∧ (flush cfg batchOracle (.resolved 200 body2) st).1.batchQueue = []
      ∧ (flush cfg batchOracle (.resolved 200 body2) st).1.failedLogsBuffer
          = st.failedLogsBuffer.drop (if cfg.isBulk then 100 else 1)
      ∧ (st.failedLogsBuffer.length ≤ (if cfg.isBulk then 100 else 1) →
          (flush cfg batchOracle (.resolved 200 body2) st).1.failedLogsBuffer = []) := by
  intro cfg batchOracle body body2 st h200 htok
  have main :
      (flush cfg batchOracle (.resolved 200 body2) st).1.batchTimer = false
      ∧ (flush cfg batchOracle (.resolved 200 body2) st).1.bufferRetryTimer = false
      ∧ (flush cfg batchOracle (.resolved 200 body2) st).1.batchQueue = []
      ∧ (flush cfg batchOracle (.resolved 200 body2) st).1.failedLogsBuffer
          = st.failedLogsBuffer.drop (if cfg.isBulk then 100 else 1) := by
    simp only [flush]
    by_cases hq : ({ st with batchTimer := false, bufferRetryTimer := false } :
        ClientState).batchQueue.length > 0
    · rw [if_pos hq]
      obtain ⟨hs1, hs2, hs3, hs4, hs5⟩ :=
        sendBatch_success_fields cfg batchOracle body
          { st with batchTimer := false, bufferRetryTimer := false } h200
          (by simp only [List.isEmpty_iff]; intro hnil; simp [hnil] at hq)
      by_cases hfb : st.failedLogsBuffer.length > 0
      · rw [if_pos (by rw [hs4, hs5]; simp [hfb, htok])]
        obtain ⟨hr1, hr2, hr3, hr4⟩ :=
          retryFailedLogs_success cfg body2 _
            (by rw [hs5]; simpa using htok)
            (by rw [hs4]; simp only [List.isEmpty_iff]; intro hnil; simp [hnil] at hfb)
        refine ⟨by rw [hr3, hs2], by rw [hr4, hs3], by rw [hr2, hs1], by rw [hr1, hs4]⟩
      · have hbe : st.failedLogsBuffer = [] := by
          rcases List.eq_nil_or_concat st.failedLogsBuffer with h | ⟨l, a, h⟩
          · exact h
          · exfalso; apply hfb; simp [h]
        rw [if_neg (by rw [hs4]; simp [hbe])]
        exact ⟨hs2, by rw [hs3], hs1, by rw [hs4]; simp [hbe]⟩
    · rw [if_neg hq]
      have hq0 : st.batchQueue = [] := by
        rcases List.eq_nil_or_concat st.batchQueue with h | ⟨l, a, h⟩
        · exact h
        · exfalso; apply hq; simp [h]
      by_cases hfb : st.failedLogsBuffer.length > 0
      · rw [if_pos (by simp [hfb, htok])]
        obtain ⟨hr1, hr2, hr3, hr4⟩ :=
          retryFailedLogs_success cfg body2
            { st with batchTimer := false, bufferRetryTimer := false }
            (by simpa using htok)
            (by simp only [List.isEmpty_iff]; intro hnil; simp [hnil] at hfb)
        refine ⟨by rw [hr3], by rw [hr4], by rw [hr2]; simp [hq0], by rw [hr1]⟩
      · have hbe : st.failedLogsBuffer = [] := by
          rcases List.eq_nil_or_concat st.failedLogsBuffer with h | ⟨l, a, h⟩
          · exact h
          · exfalso; apply hfb; simp [h]
        rw [if_neg (by simp [hbe])]
        exact ⟨rfl, rfl, by simp [hq0], by simp [hbe]⟩
  obtain ⟨m1, m2, m3, m4⟩ := main
  refine ⟨m1, m2, m3, m4, fun hle => ?_⟩
  rw [m4]
  exact List.drop_eq_nil_of_le hle

/-- Counterexample for C5 as frozen: a bulk-mode client whose failed-logs
buffer holds 101 entries, with every transport attempt succeeding — `flush`
completes with one entry still buffered (only one 100-entry drain batch is
awaited; the remainder is left to the scheduled follow-up pass), so `flush`
does not always complete with the failed-logs buffer empty. -/
theorem C5_counterexample_large_buffer_not_emptied :
    (flush {} (fun _ => .resolved 200 "ok") (.resolved 200 "ok")
        { failedLogsBuffer := List.replicate 101 "m" }).1.failedLogsBuffer
      = ["m"] := by
  rfl

/-- Witness for C5 (amended): a two-entry buffer (at most one drain batch)
is fully emptied and both timers are nulled. -/
theorem C5_flush_postconditions_witness :
    (flush {} (fun _ => .resolved 200 "ok") (.resolved 200 "done")
        { failedLogsBuffer := ["a", "b"] }).1.failedLogsBuffer = []
    ∧ (flush {} (fun _ => .resolved 200 "ok") (.resolved 200 "done")
        { failedLogsBuffer := ["a", "b"] }).1.batchTimer = false
    ∧ (flush {} (fun _ => .resolved 200 "ok") (.resolved 200 "done")
        { failedLogsBuffer := ["a", "b"] }).1.bufferRetryTimer = false
    ∧ (flush {} (fun _ => .resolved 200 "ok") (.resolved 200 "done")
        { failedLogsBuffer := ["a", "b"] }).1.batchQueue = [] := by
  obtain ⟨m1, m2, m3, m4, m5⟩ := C5_flush_postconditions {} (fun _ => .resolved 200 "ok")
    "ok" "done" { failedLogsBuffer := ["a", "b"] } rfl rfl
  exact ⟨m5 (by decide), m1, m2, m3⟩

/-- C10: passing a function in the `tags` position with no third argument is
exactly `log(data, undefined, f)` — the function is taken as the callback and
the call proceeds with no per-call tags. -/
theorem C10_callback_in_tags_position :
    ∀ (cfg : ClientConfig) (oracle : Nat → FetchOutcome) (data : LoggableData)
      (st : ClientState),
      log cfg oracle data (some TagsArg.fn) false st
        = log cfg oracle data none true st := by
  intro cfg oracle data st
  rfl

end TsLogglyBulk
